import Mathlib

/-!
Shallow embedding of the TabletQuiz addon decision core: attempt display-state
resolution, review-display options, review authorization, the access-rule
registry aggregation, and the password / offline-attempts access rules.
Times are modelled as the source handles them: wall-clock `now` is the value
of Date.now() in milliseconds, while quiz and attempt timestamps are epoch
seconds, multiplied by 1000 at each comparison exactly as in the source.
-/

namespace TabletQuiz

/-- Time considered immediately after the attempt, in seconds
(ADDON_MOD_TABLETQUIZ_IMMEDIATELY_AFTER_PERIOD). -/
def IMMEDIATELY_AFTER_PERIOD : Nat := 120

/-- Possible states for an attempt (AddonModTabletQuizAttemptStates). -/
inductive AttemptState
  | inProgress
  | overdue
  | finished
  | abandoned
deriving DecidableEq, Repr

/-- Bitmask patterns to determine if data should be displayed based on the
attempt state (AddonModTabletQuizDisplayOptionsAttemptStates). -/
inductive DisplayState
  | during
  | immediatelyAfter
  | laterWhileOpen
  | afterClose
deriving DecidableEq, Repr

/-- Wire value of each display state bit, exactly as in the constants file. -/
def DisplayState.toBit : DisplayState → Nat
  | .during => 0x10000
  | .immediatelyAfter => 0x01000
  | .laterWhileOpen => 0x00100
  | .afterClose => 0x00010

/-- Quiz WS data fields used by this core. Optional numeric WS fields are
Option-valued; the source reads them with ?? 0 or explicit undefined checks. -/
structure Quiz where
  id : Nat
  course : Nat
  coursemodule : Nat
  timeclose : Option Nat
  reviewattempt : Option Nat
  reviewcorrectness : Option Nat
  reviewmarks : Option Nat
  reviewmaxmarks : Option Nat
  reviewspecificfeedback : Option Nat
  reviewgeneralfeedback : Option Nat
  reviewrightanswer : Option Nat
  reviewoverallfeedback : Option Nat
  questiondecimalpoints : Option Int
  decimalpoints : Option Int
deriving DecidableEq, Repr

/-- Attempt WS data fields used by this core. -/
structure Attempt where
  id : Nat
  userid : Nat
  state : AttemptState
  timefinish : Option Nat
  preview : Bool
deriving DecidableEq, Repr

/-- Viewer capability flags from get_quiz_access_information. -/
structure AccessInfo where
  canattempt : Bool
  canpreview : Bool
  canreviewmyattempts : Bool
  canviewreports : Bool
deriving DecidableEq, Repr

/-- getAttemptStateDisplayOption: the display option value related to the
attempt state. `now` is Date.now() in milliseconds. The timeclose guard is
the JS truthiness test on the optional field, so an absent timeclose behaves
like 0. -/
def getAttemptStateDisplayOption (quiz : Quiz) (attempt : Attempt) (now : Nat) :
    DisplayState :=
  if attempt.state = .inProgress then
    .during
  else if quiz.timeclose.getD 0 ≠ 0 ∧ quiz.timeclose.getD 0 * 1000 ≤ now then
    .afterClose
  else if now < (attempt.timefinish.getD 0 + IMMEDIATELY_AFTER_PERIOD) * 1000 then
    .immediatelyAfter
  else
    .laterWhileOpen

/-- isAttemptCompleted: finished or abandoned. -/
def isAttemptCompleted (state : AttemptState) : Bool :=
  state = AttemptState.finished ∨ state = AttemptState.abandoned

/-- Modelled from the spec: the tri-state visibility values of the question
display options enum, which lives outside this repository slice; only the
values this core produces are included. -/
inductive QuestionDisplayOptionsValues
  | hidden
  | visible
deriving DecidableEq, Repr

/-- Modelled from the spec: the marks-specific visibility values of the
question display options enum outside this repository slice; only the values
this core produces are included. -/
inductive QuestionDisplayOptionsMarks
  | maxOnly
  | markAndMax
deriving DecidableEq, Repr

/-- The marks field of the display options carries either a marks-specific
value or a plain visibility value, matching the union type in the source. -/
inductive MarksDisplayValue
  | values (v : QuestionDisplayOptionsValues)
  | marks (m : QuestionDisplayOptionsMarks)
deriving DecidableEq, Repr

/-- calculateDisplayOptionValue: test the state bit in the setting bitmask. -/
def calculateDisplayOptionValue {T : Type} (setting : Nat) (state : DisplayState)
    (whenSet whenNotSet : T) : T :=
  if setting &&& state.toBit ≠ 0 then whenSet else whenNotSet

/-- Display options computed for a quiz and a display state. -/
structure DisplayOptions where
  attempt : Bool
  correctness : QuestionDisplayOptionsValues
  marks : MarksDisplayValue
  feedback : QuestionDisplayOptionsValues
  generalfeedback : QuestionDisplayOptionsValues
  rightanswer : QuestionDisplayOptionsValues
  overallfeedback : QuestionDisplayOptionsValues
  numpartscorrect : QuestionDisplayOptionsValues
  manualcomment : QuestionDisplayOptionsValues
  markdp : Int
deriving DecidableEq, Repr

/-- getDisplayOptionsForQuiz: equivalent to LMS display_options::make_from_quiz. -/
def getDisplayOptionsForQuiz (quiz : Quiz) (state : DisplayState) : DisplayOptions :=
  let marksOption : QuestionDisplayOptionsMarks :=
    calculateDisplayOptionValue (quiz.reviewmarks.getD 0) state .markAndMax .maxOnly
  let feedbackOption : QuestionDisplayOptionsValues :=
    calculateDisplayOptionValue (quiz.reviewspecificfeedback.getD 0) state .visible .hidden
  { attempt := calculateDisplayOptionValue (quiz.reviewattempt.getD 0) state true false
    correctness := calculateDisplayOptionValue (quiz.reviewcorrectness.getD 0) state .visible .hidden
    marks :=
      match quiz.reviewmaxmarks with
      | some m =>
          calculateDisplayOptionValue m state
            (MarksDisplayValue.marks marksOption)
            (MarksDisplayValue.values .hidden)
      | none => MarksDisplayValue.marks marksOption
    feedback := feedbackOption
    generalfeedback := calculateDisplayOptionValue (quiz.reviewgeneralfeedback.getD 0) state .visible .hidden
    rightanswer := calculateDisplayOptionValue (quiz.reviewrightanswer.getD 0) state .visible .hidden
    overallfeedback := calculateDisplayOptionValue (quiz.reviewoverallfeedback.getD 0) state .visible .hidden
    numpartscorrect := feedbackOption
    manualcomment := feedbackOption
    markdp :=
      match quiz.questiondecimalpoints with
      | some q => if q ≠ -1 then q else quiz.decimalpoints.getD 0
      | none => quiz.decimalpoints.getD 0 }

/-- Result of the external getActivityGroupInfo collaborator: group ids are
all that the decision logic inspects. -/
structure GroupInfo where
  canAccessAllGroups : Bool
  separateGroups : Bool
  groups : List Nat
deriving DecidableEq, Repr

/-- The external group-membership collaborators, as fallible functions from
the keys the source passes them: getActivityGroupInfo takes the course-module
id, getUserGroupsInCourse takes the course id and the user id of the attempt
owner. Errors stand for a rejected promise. -/
structure GroupsEnv where
  getActivityGroupInfo : Nat → Except String GroupInfo
  getUserGroupsInCourse : Nat → Nat → Except String (List Nat)

/-- canReviewOtherUserAttempt: requires canviewreports, then consults group
info; the whole lookup is wrapped in try/catch and any error yields false. -/
def canReviewOtherUserAttempt (env : GroupsEnv) (quiz : Quiz)
    (accessInfo : AccessInfo) (attempt : Attempt) : Bool :=
  if !accessInfo.canviewreports then
    false
  else
    match env.getActivityGroupInfo quiz.coursemodule with
    | .error _ => false
    | .ok groupInfo =>
      if groupInfo.canAccessAllGroups || !groupInfo.separateGroups then
        true
      else if groupInfo.groups.isEmpty then
        false
      else
        match env.getUserGroupsInCourse quiz.course attempt.userid with
        | .error _ => false
        | .ok attemptUserGroups =>
            attemptUserGroups.any fun attemptUserGroup =>
              (groupInfo.groups.find? fun group => attemptUserGroup = group).isSome

/-- hasReviewCapabilityForAttempt: viewers with canviewreports or canpreview
always qualify; otherwise canattempt qualifies in the immediately-after
window and canreviewmyattempts qualifies elsewhere. -/
def hasReviewCapabilityForAttempt (quiz : Quiz) (accessInfo : AccessInfo)
    (attempt : Attempt) (now : Nat) : Bool :=
  if accessInfo.canviewreports || accessInfo.canpreview then
    true
  else if getAttemptStateDisplayOption quiz attempt now = .immediatelyAfter then
    accessInfo.canattempt
  else
    accessInfo.canreviewmyattempts

/-- canReviewAttempt: the review authorization decision. The current site
user id and Date.now() are passed explicitly. -/
def canReviewAttempt (env : GroupsEnv) (quiz : Quiz) (accessInfo : AccessInfo)
    (attempt : Attempt) (viewerUserId : Nat) (now : Nat) : Bool :=
  if !hasReviewCapabilityForAttempt quiz accessInfo attempt now then
    false
  else if attempt.userid ≠ viewerUserId then
    canReviewOtherUserAttempt env quiz accessInfo attempt
  else if !isAttemptCompleted attempt.state then
    false
  else if attempt.preview && accessInfo.canpreview then
    true
  else if !attempt.preview && accessInfo.canviewreports then
    true
  else if quiz.reviewattempt.isNone then
    true
  else
    (getDisplayOptionsForQuiz quiz (getAttemptStateDisplayOption quiz attempt now)).attempt

/-- Preflight data: a record from rule-defined field names to string values,
modelled as an association list with first-match lookup. -/
abbrev PreflightData := List (String × String)

/-- Read a field of the preflight data record. -/
def pdGet (pd : PreflightData) (key : String) : Option String :=
  (pd.find? fun p => p.1 = key).map (·.2)

/-- Assign a field of the preflight data record: replace the first binding of
the key when present, otherwise append it. -/
def pdSet (pd : PreflightData) (key value : String) : PreflightData :=
  match pd with
  | [] => [(key, value)]
  | p :: rest => if p.1 = key then (key, value) :: rest else p :: pdSet rest key value

namespace AccessRuleDelegate

/-- A registered access-rule handler, reduced to what the registry queries:
its enabled flag and the outcome of invoking isPreflightCheckRequired, where
an error stands for a rejected promise. -/
structure RuleHandler where
  enabled : Bool
  preflightRequired : Except String Bool
deriving Repr

/-- The handler registry: rule name to handler, first registration wins. -/
abbrev Registry := List (String × RuleHandler)

/-- Look up the handler registered for a rule name. -/
def getHandler (registry : Registry) (rule : String) : Option RuleHandler :=
  (registry.find? fun p => p.1 = rule).map (·.2)

/-- Modelled from the spec: executeFunctionOnEnabled of the host framework
delegate base class, which is outside this repository slice — it returns
undefined (none) when the rule has no registered handler or the handler is
disabled, and otherwise invokes the function of the handler. -/
def executePreflightRequiredOnEnabled (registry : Registry) (rule : String) :
    Option (Except String Bool) :=
  match getHandler registry rule with
  | none => none
  | some h => if h.enabled then some h.preflightRequired else none

/-- isPreflightCheckRequiredForRule: double negation of the awaited result of
executeFunctionOnEnabled; an undefined result becomes false, an error is
rethrown. -/
def isPreflightCheckRequiredForRule (registry : Registry) (rule : String) :
    Except String Bool :=
  match executePreflightRequiredOnEnabled registry rule with
  | none => .ok false
  | some (.ok b) => .ok b
  | some (.error e) => .error e

/-- isPreflightCheckRequired: OR-accumulation across the active rules, where
a rejected per-rule promise is ignored (allPromisesIgnoringErrors) and leaves
the accumulator untouched. -/
def isPreflightCheckRequired (registry : Registry) (rules : List String) : Bool :=
  rules.foldl
    (fun isRequired rule =>
      match isPreflightCheckRequiredForRule registry rule with
      | .ok ruleRequired => isRequired || ruleRequired
      | .error _ => isRequired)
    false

/-- Whether one rule name contributes true to the OR-reduction: it must have
a registered, enabled handler whose check resolves to true. -/
def ruleContributes (registry : Registry) (rule : String) : Bool :=
  match getHandler registry rule with
  | none => false
  | some h =>
      h.enabled &&
        match h.preflightRequired with
        | .ok b => b
        | .error _ => false

end AccessRuleDelegate

namespace PasswordRule

/-- The preflight field name used by the password access rule. -/
def passwordField : String := "tabletquizpassword"

/-- Modelled from the spec: the local persistent key-value record store for
the password table, which is outside this repository slice — records are
keyed by quiz id and support get-by-key, insert-or-replace and
delete-by-key. Modelled as an association list of quiz id and password. -/
abbrev PasswordStore := List (Nat × String)

/-- getPasswordEntry: get-by-key on the password table. -/
def getPasswordEntry (store : PasswordStore) (quizId : Nat) : Option String :=
  (store.find? fun p => p.1 = quizId).map (·.2)

/-- removePassword: delete-by-key on the password table. -/
def removePassword (store : PasswordStore) (quizId : Nat) : PasswordStore :=
  store.filter fun p => p.1 ≠ quizId

/-- storePassword: insert-or-replace on the password table. -/
def storePassword (store : PasswordStore) (quizId : Nat) (password : String) :
    PasswordStore :=
  (quizId, password) :: removePassword store quizId

/-- isPreflightCheckRequired of the password rule: no preflight needed when a
stored password exists (lookup errors are ignored and count as no entry). -/
def isPreflightCheckRequired (store : PasswordStore) (quizId : Nat) : Bool :=
  (getPasswordEntry store quizId).isNone

/-- getFixedPreflightData of the password rule: leave a caller-supplied
password untouched; otherwise copy the stored password when one exists. -/
def getFixedPreflightData (store : PasswordStore) (quizId : Nat)
    (pd : PreflightData) : PreflightData :=
  if (pdGet pd passwordField).isSome then
    pd
  else
    match getPasswordEntry store quizId with
    | some password => pdSet pd passwordField password
    | none => pd

/-- notifyPreflightCheckPassed of the password rule: store the accepted
password when the preflight data carries one. -/
def notifyPreflightCheckPassed (store : PasswordStore) (quizId : Nat)
    (pd : PreflightData) : PasswordStore :=
  match pdGet pd passwordField with
  | some password => storePassword store quizId password
  | none => store

/-- notifyPreflightCheckFailed of the password rule: delete any stored
password for the quiz. -/
def notifyPreflightCheckFailed (store : PasswordStore) (quizId : Nat) :
    PasswordStore :=
  removePassword store quizId

/-- Events of the password rule that mutate the stored-password table. -/
inductive PasswordEvent
  | passed (pd : PreflightData)
  | failed
deriving DecidableEq, Repr

/-- Whether an event is the preflight-failed notification. -/
def PasswordEvent.isFailed : PasswordEvent → Bool
  | .failed => true
  | .passed _ => false

/-- Apply one password-rule event to the stored-password table. -/
def applyPasswordEvent (quizId : Nat) (store : PasswordStore) :
    PasswordEvent → PasswordStore
  | .passed pd => notifyPreflightCheckPassed store quizId pd
  | .failed => notifyPreflightCheckFailed store quizId

end PasswordRule

namespace OfflineAttemptsRule

/-- isPreflightCheckRequired of the offline attempts rule: never when
prefetching, always for a brand-new attempt, otherwise when the last
successful sync is older than the sync interval. Times are in milliseconds
as the source compares Date.now() against them. -/
def isPreflightCheckRequired (prefetch : Bool) (attempt : Option Attempt)
    (now syncInterval syncTime : Int) : Bool :=
  if prefetch then
    false
  else if attempt.isNone then
    true
  else
    decide (now - syncInterval > syncTime)

/-- getFixedPreflightData of the offline attempts rule: set the
confirmdatasaved field to "1". -/
def getFixedPreflightData (pd : PreflightData) : PreflightData :=
  pdSet pd "confirmdatasaved" "1"

end OfflineAttemptsRule

namespace PreflightLoop

/-- One iteration of the gather-validate loop of getAndCheckPreflightData:
whether the registry reported a preflight check as required this time, and
whether validatePreflightData succeeded this time. -/
structure PreflightIter where
  checkRequired : Bool
  validationOk : Bool
deriving DecidableEq, Repr

/-- Outcome of the loop: the validated attempt, a surfaced error, or fuel
exhaustion of the model (the source recursion has no intrinsic bound). -/
inductive PreflightOutcome
  | success
  | failure
  | exhausted
deriving DecidableEq, Repr

/-- getAndCheckPreflightData, reduced to its control flow: on a validation
failure it surfaces the error when prefetching, or when this call is already
a retry and no preflight check was required this time; otherwise it recurses
with the retrying flag set. The iteration list supplies the environment
behaviour of each pass and bounds the model. -/
def getAndCheckPreflightData (prefetch retrying : Bool) :
    List PreflightIter → PreflightOutcome
  | [] => .exhausted
  | it :: rest =>
    if it.validationOk then
      .success
    else if prefetch then
      .failure
    else if retrying && !it.checkRequired then
      .failure
    else
      getAndCheckPreflightData prefetch true rest

end PreflightLoop

/-! Helper lemmas about the preflight-data record and the password table. -/

lemma pdGet_pdSet_self (pd : PreflightData) (k v : String) :
    pdGet (pdSet pd k v) k = some v := by
  induction pd with
  | nil => simp [pdGet, pdSet]
  | cons p rest ih =>
    by_cases h : p.1 = k
    · simp [pdGet, pdSet, h]
    · simp only [pdSet, if_neg h]
      simpa [pdGet, List.find?, h] using ih

lemma pdGet_pdSet_ne (pd : PreflightData) (k v k' : String) (h : k' ≠ k) :
    pdGet (pdSet pd k v) k' = pdGet pd k' := by
  induction pd with
  | nil => simp [pdGet, pdSet, List.find?, h, Ne.symm h]
  | cons p rest ih =>
    by_cases hp : p.1 = k
    · subst hp
      simp [pdGet, pdSet, List.find?, Ne.symm h]
    · simp only [pdSet, if_neg hp]
      by_cases hp' : p.1 = k'
      · simp [pdGet, List.find?, hp']
      · simpa [pdGet, List.find?, hp'] using ih

namespace PasswordRule

lemma getPasswordEntry_storePassword (s : PasswordStore) (qid : Nat) (pw : String) :
    getPasswordEntry (storePassword s qid pw) qid = some pw := by
  simp [getPasswordEntry, storePassword, List.find?]

lemma getPasswordEntry_removePassword (s : PasswordStore) (qid : Nat) :
    getPasswordEntry (removePassword s qid) qid = none := by
  unfold getPasswordEntry removePassword
  rw [List.find?_eq_none.mpr]
  · rfl
  · intro x hx
    have hmem := (List.mem_filter.mp hx).2
    simp only [decide_eq_true_eq] at hmem ⊢
    simpa using hmem

lemma required_false_after_event (qid : Nat) (s : PasswordStore) (e : PasswordEvent)
    (hs : isPreflightCheckRequired s qid = false) (he : e.isFailed = false) :
    isPreflightCheckRequired (applyPasswordEvent qid s e) qid = false := by
  cases e with
  | failed => simp [PasswordEvent.isFailed] at he
  | passed pd =>
    show isPreflightCheckRequired (notifyPreflightCheckPassed s qid pd) qid = false
    cases hp : pdGet pd passwordField with
    | none => simpa [notifyPreflightCheckPassed, hp] using hs
    | some pw =>
        simp [notifyPreflightCheckPassed, hp, isPreflightCheckRequired,
          getPasswordEntry_storePassword]

lemma required_false_foldl (qid : Nat) (evs : List PasswordEvent) (s : PasswordStore)
    (hs : isPreflightCheckRequired s qid = false)
    (hevs : ∀ e ∈ evs, e.isFailed = false) :
    isPreflightCheckRequired (evs.foldl (applyPasswordEvent qid) s) qid = false := by
  induction evs generalizing s with
  | nil => simpa using hs
  | cons e rest ih =>
    simp only [List.foldl]
    exact ih (applyPasswordEvent qid s e)
      (required_false_after_event qid s e hs (hevs e (by simp)))
      (fun e' he' => hevs e' (by simp [he']))

end PasswordRule

/-- Claim C1: getAttemptStateDisplayOption resolves the temporal display state
by ordered checks — an in-progress attempt yields DURING regardless of any
close time; otherwise a non-zero reached timeclose yields AFTER_CLOSE with no
condition on timefinish; otherwise the 120-second grace window yields
IMMEDIATELY_AFTER, and past it LATER_WHILE_OPEN. -/
theorem getAttemptStateDisplayOption_ordered_cases (quiz : Quiz) (attempt : Attempt)
    (now : Nat) :
    (attempt.state = .inProgress →
       getAttemptStateDisplayOption quiz attempt now = .during) ∧
    (attempt.state ≠ .inProgress → quiz.timeclose.getD 0 ≠ 0 →
       quiz.timeclose.getD 0 * 1000 ≤ now →
       getAttemptStateDisplayOption quiz attempt now = .afterClose) ∧
    (attempt.state ≠ .inProgress →
       (quiz.timeclose.getD 0 = 0 ∨ now < quiz.timeclose.getD 0 * 1000) →
       now < (attempt.timefinish.getD 0 + IMMEDIATELY_AFTER_PERIOD) * 1000 →
       getAttemptStateDisplayOption quiz attempt now = .immediatelyAfter) ∧
    (attempt.state ≠ .inProgress →
       (quiz.timeclose.getD 0 = 0 ∨ now < quiz.timeclose.getD 0 * 1000) →
       (attempt.timefinish.getD 0 + IMMEDIATELY_AFTER_PERIOD) * 1000 ≤ now →
       getAttemptStateDisplayOption quiz attempt now = .laterWhileOpen) := by
  refine ⟨?_, ?_, ?_, ?_⟩
  · intro h
    simp [getAttemptStateDisplayOption, h]
  · intro hs ht hle
    simp [getAttemptStateDisplayOption, hs, ht, hle]
  · intro hs hc hlt
    have hnc : ¬(quiz.timeclose.getD 0 ≠ 0 ∧ quiz.timeclose.getD 0 * 1000 ≤ now) := by
      rcases hc with h0 | hlt2
      · simp [h0]
      · rintro ⟨_, hle⟩
        omega
    simp [getAttemptStateDisplayOption, hs, hnc, hlt]
  · intro hs hc hle
    have hnc : ¬(quiz.timeclose.getD 0 ≠ 0 ∧ quiz.timeclose.getD 0 * 1000 ≤ now) := by
      rcases hc with h0 | hlt2
      · simp [h0]
      · rintro ⟨_, hle2⟩
        omega
    have hnl : ¬(now < (attempt.timefinish.getD 0 + IMMEDIATELY_AFTER_PERIOD) * 1000) :=
      Nat.not_lt.mpr hle
    simp [getAttemptStateDisplayOption, hs, hnc, hnl]

/-- Witness for claim C1: a finished attempt whose quiz closed at second 1000,
observed at millisecond 2000000 — inside the grace window of a timefinish at
second 1999 — still resolves to AFTER_CLOSE. -/
theorem getAttemptStateDisplayOption_ordered_cases_witness :
    getAttemptStateDisplayOption
        ⟨1, 1, 1, some 1000, none, none, none, none, none, none, none, none, none, none⟩
        ⟨5, 7, .finished, some 1999, false⟩ 2000000 = .afterClose :=
  (getAttemptStateDisplayOption_ordered_cases _ _ _).2.1 (by decide) (by decide) (by decide)

/-- Claim C2 counterexample: with reviewattempt entirely undefined, a finished
attempt owned by the viewer, and every capability false, canReviewAttempt
returns false — the capability gate runs before the compatibility fallback, so
the claim that it returns true is refuted at this input. -/
theorem canReviewAttempt_fallback_no_capability_cex :
    canReviewAttempt
        ⟨fun _ => .ok ⟨true, false, []⟩, fun _ _ => .ok []⟩
        ⟨1, 2, 3, none, none, none, none, none, none, none, none, none, none, none⟩
        ⟨false, false, false, false⟩
        ⟨5, 7, .finished, some 0, false⟩ 7 1000000000 = false := by
  decide

/-- Claim C2 amended: when reviewattempt is entirely undefined, the attempt is
a completed attempt owned by the viewer, and the viewer passes the capability
gate of hasReviewCapabilityForAttempt, canReviewAttempt returns true — the
compatibility fallback defers enforcement to the remote review endpoint, but
only after the capability gate has passed. -/
theorem canReviewAttempt_fallback_amended (env : GroupsEnv) (quiz : Quiz)
    (accessInfo : AccessInfo) (attempt : Attempt) (viewerUserId now : Nat)
    (hr : quiz.reviewattempt = none)
    (hown : attempt.userid = viewerUserId)
    (hdone : isAttemptCompleted attempt.state = true)
    (hcap : hasReviewCapabilityForAttempt quiz accessInfo attempt now = true) :
    canReviewAttempt env quiz accessInfo attempt viewerUserId now = true := by
  simp [canReviewAttempt, hcap, hown, hdone, hr]

/-- Witness for claim C2 amended: the viewer owns a finished attempt, can
review own attempts, and the quiz carries no reviewattempt setting, so review
is allowed. -/
theorem canReviewAttempt_fallback_amended_witness :
    canReviewAttempt
        ⟨fun _ => .ok ⟨true, false, []⟩, fun _ _ => .ok []⟩
        ⟨1, 2, 3, none, none, none, none, none, none, none, none, none, none, none⟩
        ⟨false, false, true, false⟩
        ⟨5, 7, .finished, some 100, false⟩ 7 1000000000 = true :=
  canReviewAttempt_fallback_amended _ _ _ _ _ _ rfl rfl (by decide) (by decide)

/-- Claim C3: for an attempt of a different user, canReviewAttempt returns
true only if canviewreports holds and either no group separation applies or
the viewer shares a group with the attempt owner; a failed group-info lookup
or a failed user-groups lookup yields false, and the model is a total boolean
function, so the error never escapes. -/
theorem canReviewAttempt_other_user_spec (env : GroupsEnv) (quiz : Quiz)
    (accessInfo : AccessInfo) (attempt : Attempt) (viewerUserId now : Nat)
    (hu : attempt.userid ≠ viewerUserId) :
    (canReviewAttempt env quiz accessInfo attempt viewerUserId now = true →
       accessInfo.canviewreports = true ∧
       ∃ gi, env.getActivityGroupInfo quiz.coursemodule = .ok gi ∧
         (gi.canAccessAllGroups = true ∨ gi.separateGroups = false ∨
          ∃ ugs, env.getUserGroupsInCourse quiz.course attempt.userid = .ok ugs ∧
            (ugs.any fun ug => (gi.groups.find? fun g => ug = g).isSome) = true)) ∧
    (∀ e, env.getActivityGroupInfo quiz.coursemodule = .error e →
       canReviewAttempt env quiz accessInfo attempt viewerUserId now = false) ∧
    (∀ gi e, env.getActivityGroupInfo quiz.coursemodule = .ok gi →
       gi.canAccessAllGroups = false → gi.separateGroups = true →
       env.getUserGroupsInCourse quiz.course attempt.userid = .error e →
       canReviewAttempt env quiz accessInfo attempt viewerUserId now = false) := by
  refine ⟨?_, ?_, ?_⟩
  · intro h
    have h2 : canReviewOtherUserAttempt env quiz accessInfo attempt = true := by
      by_cases hcap : hasReviewCapabilityForAttempt quiz accessInfo attempt now
      · simpa [canReviewAttempt, hcap, hu] using h
      · simp [canReviewAttempt, hcap] at h
    by_cases hv : accessInfo.canviewreports
    swap
    · simp [canReviewOtherUserAttempt, hv] at h2
    refine ⟨hv, ?_⟩
    cases hgi : env.getActivityGroupInfo quiz.coursemodule with
    | error e => simp [canReviewOtherUserAttempt, hv, hgi] at h2
    | ok gi =>
      refine ⟨gi, rfl, ?_⟩
      simp only [canReviewOtherUserAttempt, hv, hgi, Bool.not_true,
        Bool.false_eq_true, if_false] at h2
      by_cases hall : gi.canAccessAllGroups
      · exact Or.inl hall
      by_cases hsep : gi.separateGroups
      swap
      · exact Or.inr (Or.inl (by simpa using hsep))
      refine Or.inr (Or.inr ?_)
      simp only [hall, hsep, Bool.not_true, Bool.or_false, if_false] at h2
      by_cases hempty : gi.groups.isEmpty
      · simp [hempty] at h2
      cases hug : env.getUserGroupsInCourse quiz.course attempt.userid with
      | error e => simp [hempty, hug] at h2
      | ok ugs =>
        refine ⟨ugs, rfl, ?_⟩
        simpa [hempty, hug] using h2
  · intro e hgi
    by_cases hcap : hasReviewCapabilityForAttempt quiz accessInfo attempt now
    · simp [canReviewAttempt, hcap, hu, canReviewOtherUserAttempt, hgi]
    · simp [canReviewAttempt, hcap]
  · intro gi e hgi hall hsep hug
    by_cases hcap : hasReviewCapabilityForAttempt quiz accessInfo attempt now
    · simp [canReviewAttempt, hcap, hu, canReviewOtherUserAttempt, hgi, hall, hsep, hug]
    · simp [canReviewAttempt, hcap]

/-- Witness for claim C3: a failed group-info lookup denies review of a
different user attempt even though the viewer can view reports. -/
theorem canReviewAttempt_other_user_spec_witness :
    canReviewAttempt
        ⟨fun _ => .error "lookup rejected", fun _ _ => .ok []⟩
        ⟨1, 2, 3, none, none, none, none, none, none, none, none, none, none, none⟩
        ⟨false, false, false, true⟩
        ⟨5, 7, .finished, some 100, false⟩ 9 1000000000 = false :=
  (canReviewAttempt_other_user_spec
      ⟨fun _ => .error "lookup rejected", fun _ _ => .ok []⟩
      ⟨1, 2, 3, none, none, none, none, none, none, none, none, none, none, none⟩
      ⟨false, false, false, true⟩
      ⟨5, 7, .finished, some 100, false⟩ 9 1000000000
      (by decide)).2.1 "lookup rejected" rfl

namespace AccessRuleDelegate

lemma step_eq (registry : Registry) (acc : Bool) (rule : String) :
    (match isPreflightCheckRequiredForRule registry rule with
      | .ok ruleRequired => acc || ruleRequired
      | .error _ => acc)
      = (acc || ruleContributes registry rule) := by
  unfold isPreflightCheckRequiredForRule executePreflightRequiredOnEnabled ruleContributes
  cases hh : getHandler registry rule with
  | none => simp
  | some h =>
      cases he : h.enabled with
      | false => simp [he]
      | true => cases hp : h.preflightRequired <;> simp [he, hp]

lemma foldl_or_acc (g : String → Bool) (rules : List String) (acc : Bool) :
    rules.foldl (fun a r => a || g r) acc = (acc || rules.any g) := by
  induction rules generalizing acc with
  | nil => simp
  | cons r rs ih => simp [List.foldl, ih, Bool.or_assoc]

lemma foldl_or_any (registry : Registry) (rules : List String) (acc : Bool) :
    rules.foldl
        (fun isRequired rule =>
          match isPreflightCheckRequiredForRule registry rule with
          | .ok ruleRequired => isRequired || ruleRequired
          | .error _ => isRequired)
        acc
      = (acc || rules.any (ruleContributes registry)) := by
  have hfun :
      (fun (isRequired : Bool) (rule : String) =>
        match isPreflightCheckRequiredForRule registry rule with
        | .ok ruleRequired => isRequired || ruleRequired
        | .error _ => isRequired)
        = fun (a : Bool) (r : String) => a || ruleContributes registry r :=
    funext fun a => funext fun r => step_eq registry a r
  rw [hfun, foldl_or_acc]

end AccessRuleDelegate

/-- Claim C4: the registry OR-reduces isPreflightCheckRequired over exactly
the rules with a registered, enabled handler whose check resolves true; a
missing or disabled handler answers false for its rule, and a list made only
of non-contributing rules (missing, disabled, or throwing handlers) yields
false. -/
theorem delegate_isPreflightCheckRequired_spec (registry : AccessRuleDelegate.Registry)
    (rules : List String) :
    AccessRuleDelegate.isPreflightCheckRequired registry rules
        = rules.any (AccessRuleDelegate.ruleContributes registry) ∧
    (∀ rule, AccessRuleDelegate.getHandler registry rule = none →
       AccessRuleDelegate.isPreflightCheckRequiredForRule registry rule = .ok false) ∧
    (∀ rule h, AccessRuleDelegate.getHandler registry rule = some h →
       h.enabled = false →
       AccessRuleDelegate.isPreflightCheckRequiredForRule registry rule = .ok false) ∧
    ((∀ rule ∈ rules, AccessRuleDelegate.ruleContributes registry rule = false) →
       AccessRuleDelegate.isPreflightCheckRequired registry rules = false) := by
  have hmain : AccessRuleDelegate.isPreflightCheckRequired registry rules
      = rules.any (AccessRuleDelegate.ruleContributes registry) := by
    unfold AccessRuleDelegate.isPreflightCheckRequired
    simpa using AccessRuleDelegate.foldl_or_any registry rules false
  refine ⟨hmain, ?_, ?_, ?_⟩
  · intro rule hnone
    simp [AccessRuleDelegate.isPreflightCheckRequiredForRule,
      AccessRuleDelegate.executePreflightRequiredOnEnabled, hnone]
  · intro rule h hsome hdis
    simp [AccessRuleDelegate.isPreflightCheckRequiredForRule,
      AccessRuleDelegate.executePreflightRequiredOnEnabled, hsome, hdis]
  · intro hzero
    rw [hmain]
    simpa using hzero

/-- Witness for claim C4: a list holding a disabled rule, an unregistered
rule, and a rule whose check rejects yields false, even though a registered
enabled handler off the list would answer true. -/
theorem delegate_isPreflightCheckRequired_spec_witness :
    AccessRuleDelegate.isPreflightCheckRequired
        [("alpha", ⟨false, .ok true⟩), ("gamma", ⟨true, .error "rejected"⟩),
         ("delta", ⟨true, .ok true⟩)]
        ["alpha", "beta", "gamma"] = false :=
  (delegate_isPreflightCheckRequired_spec
      [("alpha", ⟨false, .ok true⟩), ("gamma", ⟨true, .error "rejected"⟩),
       ("delta", ⟨true, .ok true⟩)]
      ["alpha", "beta", "gamma"]).2.2.2 (by decide)

/-- Claim C5: a defined reviewmaxmarks whose bit for the current state is
unset forces the marks field to HIDDEN regardless of reviewmarks; markdp is
questiondecimalpoints when defined and not -1, else decimalpoints when
defined, else 0. -/
theorem getDisplayOptionsForQuiz_marks_markdp (quiz : Quiz) (state : DisplayState) :
    (∀ m, quiz.reviewmaxmarks = some m → m &&& state.toBit = 0 →
       (getDisplayOptionsForQuiz quiz state).marks = .values .hidden) ∧
    (∀ q, quiz.questiondecimalpoints = some q → q ≠ -1 →
       (getDisplayOptionsForQuiz quiz state).markdp = q) ∧
    ((quiz.questiondecimalpoints = none ∨ quiz.questiondecimalpoints = some (-1)) →
       (getDisplayOptionsForQuiz quiz state).markdp = quiz.decimalpoints.getD 0) := by
  refine ⟨?_, ?_, ?_⟩
  · intro m hm hbit
    simp [getDisplayOptionsForQuiz, calculateDisplayOptionValue, hm, hbit]
  · intro q hq hne
    simp [getDisplayOptionsForQuiz, hq, hne]
  · intro hq
    rcases hq with hq | hq <;> simp [getDisplayOptionsForQuiz, hq]

/-- Witness for claim C5: reviewmaxmarks has the LATER_WHILE_OPEN bit unset
while reviewmarks has every bit set, and marks is still hidden. -/
theorem getDisplayOptionsForQuiz_marks_markdp_witness :
    (getDisplayOptionsForQuiz
        ⟨1, 2, 3, none, none, none, some 0x11110, some 0x11010, none, none, none,
         none, none, none⟩
        .laterWhileOpen).marks = .values .hidden :=
  (getDisplayOptionsForQuiz_marks_markdp
      ⟨1, 2, 3, none, none, none, some 0x11110, some 0x11010, none, none, none,
       none, none, none⟩
      .laterWhileOpen).1 0x11010 rfl (by decide)

/-- Claim C6: once notifyPreflightCheckPassed stores a password for a quiz,
isPreflightCheckRequired for that quiz is false, stays false across any
further password-rule events that are not the failed notification, and flips
back to true right after notifyPreflightCheckFailed deletes the entry. -/
theorem password_rule_round_trip (s : PasswordRule.PasswordStore) (qid : Nat)
    (pd : PreflightData) (pw : String) (evs : List PasswordRule.PasswordEvent)
    (hpw : pdGet pd PasswordRule.passwordField = some pw)
    (hevs : ∀ e ∈ evs, e.isFailed = false) :
    PasswordRule.isPreflightCheckRequired
        (PasswordRule.notifyPreflightCheckPassed s qid pd) qid = false ∧
    PasswordRule.isPreflightCheckRequired
        (evs.foldl (PasswordRule.applyPasswordEvent qid)
          (PasswordRule.notifyPreflightCheckPassed s qid pd)) qid = false ∧
    PasswordRule.isPreflightCheckRequired
        (PasswordRule.notifyPreflightCheckFailed
          (evs.foldl (PasswordRule.applyPasswordEvent qid)
            (PasswordRule.notifyPreflightCheckPassed s qid pd)) qid) qid = true := by
  have h1 : PasswordRule.isPreflightCheckRequired
      (PasswordRule.notifyPreflightCheckPassed s qid pd) qid = false := by
    simp [PasswordRule.notifyPreflightCheckPassed, hpw,
      PasswordRule.isPreflightCheckRequired, PasswordRule.getPasswordEntry_storePassword]
  have h2 := PasswordRule.required_false_foldl qid evs
    (PasswordRule.notifyPreflightCheckPassed s qid pd) h1 hevs
  refine ⟨h1, h2, ?_⟩
  simp [PasswordRule.notifyPreflightCheckFailed, PasswordRule.isPreflightCheckRequired,
    PasswordRule.getPasswordEntry_removePassword]

/-- Witness for claim C6: storing the password for quiz 3 makes the check not
required, a later passed notification keeps it not required, and the failed
notification makes it required again. -/
theorem password_rule_round_trip_witness :
    PasswordRule.isPreflightCheckRequired
        (PasswordRule.notifyPreflightCheckFailed
          ([PasswordRule.PasswordEvent.passed []].foldl
            (PasswordRule.applyPasswordEvent 3)
            (PasswordRule.notifyPreflightCheckPassed [] 3
              [(PasswordRule.passwordField, "secret")])) 3) 3 = true :=
  (password_rule_round_trip [] 3 [(PasswordRule.passwordField, "secret")] "secret"
      [PasswordRule.PasswordEvent.passed []] rfl (by decide)).2.2

/-- Claim C7: the offline attempts rule never requires a preflight check when
prefetching, always requires one for a brand-new attempt, otherwise requires
one exactly when the last sync is older than the sync interval; and its fixed
preflight data always carries confirmdatasaved set to "1". -/
theorem offline_attempts_rule_spec (att : Option Attempt) (a : Attempt)
    (now syncInterval syncTime : Int) (pd : PreflightData) :
    OfflineAttemptsRule.isPreflightCheckRequired true att now syncInterval syncTime
        = false ∧
    OfflineAttemptsRule.isPreflightCheckRequired false none now syncInterval syncTime
        = true ∧
    (OfflineAttemptsRule.isPreflightCheckRequired false (some a) now syncInterval syncTime
        = true ↔ now - syncInterval > syncTime) ∧
    pdGet (OfflineAttemptsRule.getFixedPreflightData pd) "confirmdatasaved"
        = some "1" := by
  refine ⟨?_, ?_, ?_, ?_⟩
  · simp [OfflineAttemptsRule.isPreflightCheckRequired]
  · simp [OfflineAttemptsRule.isPreflightCheckRequired]
  · simp [OfflineAttemptsRule.isPreflightCheckRequired]
  · exact pdGet_pdSet_self pd "confirmdatasaved" "1"

/-- Claim C8 counterexample: with the first pass failing validation while no
preflight check was required, the loop does not surface the error — it
retries, and the run succeeds on the second pass, refuting the claim that the
loop terminates with the error whenever no check was required and validation
failed. -/
theorem getAndCheckPreflightData_first_failure_retry_cex :
    PreflightLoop.getAndCheckPreflightData false false
        [⟨false, false⟩, ⟨false, true⟩] = .success := by
  decide

/-- Claim C8 amended: with the retrying flag clear, the first validation
failure retries regardless of whether a preflight check was required; a retry
surfaces the error when the failure occurred with no check required; when
prefetching a failure surfaces the error immediately with no retry; and a run
whose passes all fail with no check required surfaces the error after at most
one retry, so it never recurses unboundedly. -/
theorem getAndCheckPreflightData_retry_guard (retrying : Bool)
    (it : PreflightLoop.PreflightIter) (rest l : List PreflightLoop.PreflightIter)
    (hfail : it.validationOk = false)
    (hall : ∀ j ∈ l, j.checkRequired = false ∧ j.validationOk = false)
    (hlen : 2 ≤ l.length) :
    PreflightLoop.getAndCheckPreflightData true retrying (it :: rest) = .failure ∧
    (it.checkRequired = false →
       PreflightLoop.getAndCheckPreflightData false true (it :: rest) = .failure) ∧
    ((retrying = false ∨ it.checkRequired = true) →
       PreflightLoop.getAndCheckPreflightData false retrying (it :: rest)
         = PreflightLoop.getAndCheckPreflightData false true rest) ∧
    PreflightLoop.getAndCheckPreflightData false false l = .failure := by
  refine ⟨?_, ?_, ?_, ?_⟩
  · simp [PreflightLoop.getAndCheckPreflightData, hfail]
  · intro hcr
    simp [PreflightLoop.getAndCheckPreflightData, hfail, hcr]
  · rintro (hr | hcr)
    · simp [PreflightLoop.getAndCheckPreflightData, hfail, hr]
    · simp [PreflightLoop.getAndCheckPreflightData, hfail, hcr]
  · match l, hlen with
    | a :: b :: r, _ =>
      obtain ⟨ha1, ha2⟩ := hall a (by simp)
      obtain ⟨hb1, hb2⟩ := hall b (by simp)
      simp [PreflightLoop.getAndCheckPreflightData, ha1, ha2, hb1, hb2]

/-- Witness for claim C8 amended: two consecutive passes failing with no
check required end in a surfaced error rather than a further retry. -/
theorem getAndCheckPreflightData_retry_guard_witness :
    PreflightLoop.getAndCheckPreflightData false false
        [⟨false, false⟩, ⟨false, false⟩, ⟨false, false⟩] = .failure :=
  (getAndCheckPreflightData_retry_guard false ⟨true, false⟩ []
      [⟨false, false⟩, ⟨false, false⟩, ⟨false, false⟩]
      rfl (by decide) (by decide)).2.2.2

/-- Claim C9: for an attempt of a different user, canReviewAttempt never
consults the completion state directly — it equals the capability gate
combined with canReviewOtherUserAttempt, and under canviewreports it equals
canReviewOtherUserAttempt alone, so an in-progress attempt of another user
can be granted review. -/
theorem canReviewAttempt_other_user_delegates (env : GroupsEnv) (quiz : Quiz)
    (accessInfo : AccessInfo) (attempt : Attempt) (viewerUserId now : Nat)
    (hu : attempt.userid ≠ viewerUserId) :
    canReviewAttempt env quiz accessInfo attempt viewerUserId now
        = (hasReviewCapabilityForAttempt quiz accessInfo attempt now &&
           canReviewOtherUserAttempt env quiz accessInfo attempt) ∧
    (accessInfo.canviewreports = true →
       canReviewAttempt env quiz accessInfo attempt viewerUserId now
         = canReviewOtherUserAttempt env quiz accessInfo attempt) := by
  have h1 : canReviewAttempt env quiz accessInfo attempt viewerUserId now
      = (hasReviewCapabilityForAttempt quiz accessInfo attempt now &&
         canReviewOtherUserAttempt env quiz accessInfo attempt) := by
    by_cases hcap : hasReviewCapabilityForAttempt quiz accessInfo attempt now
    · simp [canReviewAttempt, hcap, hu]
    · simp [canReviewAttempt, hcap]
  refine ⟨h1, fun hv => ?_⟩
  have hcap : hasReviewCapabilityForAttempt quiz accessInfo attempt now = true := by
    simp [hasReviewCapabilityForAttempt, hv]
  rw [h1, hcap, Bool.true_and]

/-- Witness for claim C9: a viewer with canviewreports reviews an in-progress
attempt of another user when group access is unrestricted. -/
theorem canReviewAttempt_other_user_delegates_witness :
    canReviewAttempt
        ⟨fun _ => .ok ⟨true, false, []⟩, fun _ _ => .ok []⟩
        ⟨1, 2, 3, none, none, none, none, none, none, none, none, none, none, none⟩
        ⟨false, false, false, true⟩
        ⟨5, 7, .inProgress, none, false⟩ 9 0 = true := by
  rw [(canReviewAttempt_other_user_delegates
      ⟨fun _ => .ok ⟨true, false, []⟩, fun _ _ => .ok []⟩
      ⟨1, 2, 3, none, none, none, none, none, none, none, none, none, none, none⟩
      ⟨false, false, false, true⟩
      ⟨5, 7, .inProgress, none, false⟩ 9 0 (by decide)).2 rfl]
  rfl

/-- Claim C10: getFixedPreflightData of the password rule returns the
preflight data untouched when it already carries the password field, and
otherwise mutates at most the password field — every other field is
preserved, the field is filled from the stored entry when one exists, and
with no stored entry the data is returned unchanged. -/
theorem password_getFixedPreflightData_frame (s : PasswordRule.PasswordStore)
    (qid : Nat) (pd : PreflightData) :
    ((pdGet pd PasswordRule.passwordField).isSome = true →
       PasswordRule.getFixedPreflightData s qid pd = pd) ∧
    (pdGet pd PasswordRule.passwordField = none →
       (∀ k, k ≠ PasswordRule.passwordField →
          pdGet (PasswordRule.getFixedPreflightData s qid pd) k = pdGet pd k) ∧
       (∀ pw, PasswordRule.getPasswordEntry s qid = some pw →
          pdGet (PasswordRule.getFixedPreflightData s qid pd)
              PasswordRule.passwordField = some pw) ∧
       (PasswordRule.getPasswordEntry s qid = none →
          PasswordRule.getFixedPreflightData s qid pd = pd)) := by
  refine ⟨?_, ?_⟩
  · intro h
    simp [PasswordRule.getFixedPreflightData, h]
  · intro h
    refine ⟨?_, ?_, ?_⟩
    · intro k hk
      cases he : PasswordRule.getPasswordEntry s qid with
      | none => simp [PasswordRule.getFixedPreflightData, h, he]
      | some pw =>
          simp only [PasswordRule.getFixedPreflightData, h, Option.isSome_none,
            Bool.false_eq_true, if_false, he]
          exact pdGet_pdSet_ne pd PasswordRule.passwordField pw k hk
    · intro pw he
      simp only [PasswordRule.getFixedPreflightData, h, Option.isSome_none,
        Bool.false_eq_true, if_false, he]
      exact pdGet_pdSet_self pd PasswordRule.passwordField pw
    · intro he
      simp [PasswordRule.getFixedPreflightData, h, he]

/-- Witness for claim C10: with no caller-supplied password and a stored
entry for quiz 3, the password field is filled from the store. -/
theorem password_getFixedPreflightData_frame_witness :
    pdGet (PasswordRule.getFixedPreflightData [(3, "secret")] 3 [("other", "x")])
        PasswordRule.passwordField = some "secret" :=
  ((password_getFixedPreflightData_frame [(3, "secret")] 3 [("other", "x")]).2
      (by decide)).2.1 "secret" rfl

end TabletQuiz
